import Mathlib

/-!
Shallow embedding of the `bn` consensus commitment subround
(`NewSubroundCommitment`, `doCommitmentJob`, `receivedCommitment`,
`doCommitmentConsensusCheck`, `commitmentsCollected`) and of
`core.IsMetaChainShardId`, together with proofs of the specification
claims about them.

Byte sequences and public keys are modelled as `List Nat`; the per-round
bookkeeping (`ConsensusState`) and the external multi-signer store are
explicit state records, and the stateful operations are functions from
state to (result, new state).
-/

namespace ElrondBn

/-- Opaque byte sequences (block-header hashes, commitments). -/
abbrev Bytes := List Nat

/-- Validator identities (public keys), opaque byte sequences. -/
abbrev PubKey := List Nat

/-- Subround identifier constants of the `bn` package. -/
def SrStartRound : Nat := 0

def SrBlock : Nat := 1

def SrCommitmentHash : Nat := 2

def SrBitmap : Nat := 3

def SrCommitment : Nat := 4

def SrSignature : Nat := 5

def SrEndRound : Nat := 6

/-- Message-type tag for commitment messages (`MtCommitment`). -/
def MtCommitment : Int := 4

/-- Tri-state subround status (`spos.SsNotFinished/SsExtended/SsFinished`). -/
inductive SubroundStatus where
  | SsNotFinished
  | SsExtended
  | SsFinished
deriving DecidableEq, Repr

export SubroundStatus (SsNotFinished SsExtended SsFinished)

/-- A consensus message (`consensus.Message`, built by `NewConsensusMessage`):
block-header hash, subround payload, sender public key, message type,
timestamp, round index.  The signature field is always nil for commitment
messages and is omitted. -/
structure Message where
  blockHeaderHash : Bytes
  subRoundData : Bytes
  pubKey : PubKey
  msgType : Int
  timeStamp : Nat
  roundIndex : Int
deriving DecidableEq, Repr

/-- `consensus.NewConsensusMessage`: builds a consensus message from its
fields (the nil signature field of commitment messages is omitted). -/
def NewConsensusMessage (blockHeaderHash subRoundData : Bytes) (pubKey : PubKey)
    (msgType : Int) (timeStamp : Nat) (roundIndex : Int) : Message :=
  { blockHeaderHash := blockHeaderHash
    subRoundData := subRoundData
    pubKey := pubKey
    msgType := msgType
    timeStamp := timeStamp
    roundIndex := roundIndex }

/-- The external `Rounder` collaborator: supplies the round index and the
round timestamp. -/
structure Rounder where
  timeStamp : Nat
  index : Int
deriving DecidableEq, Repr

/-- Per-round mutable bookkeeping (`spos.ConsensusState`): the consensus
group, the local node's key, the round's agreed data (none = not set),
the per-validator per-subround job-done flags, the per-subround status,
the per-subround thresholds, and the round-cancellation flag. -/
structure ConsensusState where
  consensusGroup : List PubKey
  selfPubKey : PubKey
  data : Option Bytes
  jobDone : PubKey → Nat → Bool
  status : Nat → SubroundStatus
  threshold : Nat → Nat
  roundCanceled : Bool

namespace ConsensusState

/-- Modelled from the spec: `IsConsensusDataSet` (spos package, not under
src/) — whether the round's RoundData has been set. -/
def IsConsensusDataSet (s : ConsensusState) : Bool :=
  s.data.isSome

/-- Modelled from the spec: `IsConsensusDataEqual` (spos package, not under
src/) — exact byte comparison of the candidate against RoundData. -/
def IsConsensusDataEqual (s : ConsensusState) (candidate : Bytes) : Bool :=
  s.data = some candidate

/-- Modelled from the spec: `JobDone(nodeId, subround)` (spos package, not
under src/) — returns the flag, failing (none) if the node is absent from
the consensus group. -/
def JobDone (s : ConsensusState) (node : PubKey) (sr : Nat) : Option Bool :=
  if node ∈ s.consensusGroup then some (s.jobDone node sr) else none

/-- Modelled from the spec: `IsJobDone` (spos package, not under src/) —
`JobDone` with the not-found failure collapsed to false. -/
def IsJobDone (s : ConsensusState) (node : PubKey) (sr : Nat) : Bool :=
  (s.JobDone node sr).getD false

/-- Modelled from the spec: `IsSelfJobDone` (spos package, not under
src/). -/
def IsSelfJobDone (s : ConsensusState) (sr : Nat) : Bool :=
  s.IsJobDone s.selfPubKey sr

/-- Modelled from the spec: `SetJobDone` (spos package, not under src/) —
records the flag, failing (none) if the node is absent from the group. -/
def SetJobDone (s : ConsensusState) (node : PubKey) (sr : Nat) (v : Bool) :
    Option ConsensusState :=
  if node ∈ s.consensusGroup then
    some { s with jobDone := fun n j =>
      if n = node ∧ j = sr then v else s.jobDone n j }
  else none

/-- Modelled from the spec: `SetSelfJobDone` (spos package, not under
src/). -/
def SetSelfJobDone (s : ConsensusState) (sr : Nat) (v : Bool) :
    Option ConsensusState :=
  s.SetJobDone s.selfPubKey sr v

/-- Modelled from the spec: `Status` accessor (spos package, not under
src/). -/
def Status (s : ConsensusState) (sr : Nat) : SubroundStatus :=
  s.status sr

/-- Modelled from the spec: `SetStatus` (spos package, not under src/). -/
def SetStatus (s : ConsensusState) (sr : Nat) (st : SubroundStatus) :
    ConsensusState :=
  { s with status := fun i => if i = sr then st else s.status i }

/-- Modelled from the spec: `Threshold` accessor (spos package, not under
src/). -/
def Threshold (s : ConsensusState) (sr : Nat) : Nat :=
  s.threshold sr

/-- First index of a node in a validator list (none when absent). -/
def indexOfNode : List PubKey → PubKey → Option Nat
  | [], _ => none
  | x :: xs, n => if x = n then some 0 else (indexOfNode xs n).map (· + 1)

/-- Modelled from the spec: `ConsensusGroupIndex` (spos package, not under
src/) — the node's index in the consensus group, failing when absent. -/
def ConsensusGroupIndex (s : ConsensusState) (node : PubKey) : Option Nat :=
  indexOfNode s.consensusGroup node

/-- Modelled from the spec: `SelfConsensusGroupIndex` (spos package, not
under src/). -/
def SelfConsensusGroupIndex (s : ConsensusState) : Option Nat :=
  s.ConsensusGroupIndex s.selfPubKey

/-- Modelled from the spec: `ComputeSize(subround)` (spos package, not
under src/) — count of true job-done entries across the group. -/
def ComputeSize (s : ConsensusState) (sr : Nat) : Nat :=
  (s.consensusGroup.filter (fun n => s.jobDone n sr)).length

/-- Modelled from the spec: the generic processable check
(`CanProcessReceivedMessage`, spos package, not under src/): correct round
index, sender in group, not a duplicate (sender's job for the current
subround not already done). -/
def CanProcessReceivedMessage (s : ConsensusState) (cnsDta : Message)
    (roundIndex : Int) (currentSr : Nat) : Bool :=
  cnsDta.roundIndex = roundIndex
    && decide (cnsDta.pubKey ∈ s.consensusGroup)
    && !(s.IsJobDone cnsDta.pubKey currentSr)

/-- Modelled from the spec: `CanDoSubroundJob` (spos package, not under
src/): the round's consensus data is set, the local node has not yet done
its job for the phase, and the subround is not already finished. -/
def CanDoSubroundJob (s : ConsensusState) (sr : Nat) : Bool :=
  s.IsConsensusDataSet
    && !(s.IsSelfJobDone sr)
    && !(s.Status sr = SsFinished)

end ConsensusState

/-- The external multi-signer's per-index commitment store
(`CommitmentStore`), as used through `Commitment(index)` and
`StoreCommitment(index, bytes)`. -/
structure MultiSigner where
  commitments : Nat → Option Bytes

namespace MultiSigner

/-- Modelled from the spec: the external multi-signer primitive
`Commitment(index) -> bytes`, failing when no commitment is stored for the
index. -/
def Commitment (ms : MultiSigner) (i : Nat) : Option Bytes :=
  ms.commitments i

/-- Modelled from the spec: the external multi-signer primitive
`StoreCommitment(index, bytes)`. -/
def StoreCommitment (ms : MultiSigner) (i : Nat) (d : Bytes) : MultiSigner :=
  { ms with commitments := fun j => if j = i then some d else ms.commitments j }

end MultiSigner

/-- The mutable world visible to the commitment subround: the consensus
state plus the multi-signer's store. -/
structure SubroundState where
  cns : ConsensusState
  multiSigner : MultiSigner

open ConsensusState MultiSigner

/-- Recursion of `commitmentsCollected`'s loop over the consensus group,
carrying the count `n` of (bitmap-done ∧ commitment-done) members seen so
far; a bitmap-done member without a commitment returns false at once,
lookup failures are skipped (`continue`). -/
def commitmentsCollectedAux (s : ConsensusState) (threshold : Nat) :
    List PubKey → Nat → Bool
  | [], n => decide (n ≥ threshold)
  | node :: rest, n =>
    match s.JobDone node SrBitmap with
    | none => commitmentsCollectedAux s threshold rest n
    | some isBitmapJobDone =>
      if isBitmapJobDone then
        match s.JobDone node SrCommitment with
        | none => commitmentsCollectedAux s threshold rest n
        | some isCommJobDone =>
          if !isCommJobDone then false
          else commitmentsCollectedAux s threshold rest (n + 1)
      else commitmentsCollectedAux s threshold rest n

/-- `commitmentsCollected` (subroundCommitment.go): checks whether the
commitments received from the nodes belonging to the jobDone group cover
the bitmap received from the leader, and that their count reaches the
threshold. -/
def commitmentsCollected (s : ConsensusState) (threshold : Nat) : Bool :=
  commitmentsCollectedAux s threshold s.consensusGroup 0

/-- `doCommitmentConsensusCheck` (subroundCommitment.go): false when the
round is canceled; true when the subround is already finished; otherwise
marks the subround finished and returns true exactly when
`commitmentsCollected(Threshold(SrCommitment))` holds. -/
def doCommitmentConsensusCheck (s : ConsensusState) :
    Bool × ConsensusState :=
  if s.roundCanceled then (false, s)
  else if s.Status SrCommitment = SsFinished then (true, s)
  else if commitmentsCollected s (s.Threshold SrCommitment) then
    (true, s.SetStatus SrCommitment SsFinished)
  else (false, s)

/-- `receivedCommitment` (subroundCommitment.go): gates the message on
consensus data being set and equal to the message's header hash, the
sender being bitmap-done, and the generic processable check; then stores
the commitment at the sender's group index and marks the sender's
Commitment job done. -/
def receivedCommitment (st : SubroundState) (rounder : Rounder)
    (cnsDta : Message) : Bool × SubroundState :=
  let node := cnsDta.pubKey
  if !(st.cns.IsConsensusDataSet) then (false, st)
  else if !(st.cns.IsConsensusDataEqual cnsDta.blockHeaderHash) then (false, st)
  else if !(st.cns.IsJobDone node SrBitmap) then (false, st)
  else if !(st.cns.CanProcessReceivedMessage cnsDta rounder.index SrCommitment) then
    (false, st)
  else
    match st.cns.ConsensusGroupIndex node with
    | none => (false, st)
    | some index =>
      let ms := st.multiSigner.StoreCommitment index cnsDta.subRoundData
      match st.cns.SetJobDone node SrCommitment true with
      | none => (false, { st with multiSigner := ms })
      | some cns => (true, { cns := cns, multiSigner := ms })

/-- `doCommitmentJob` (subroundCommitment.go): requires self bitmap-done
and `CanDoSubroundJob(SrCommitment)`; obtains self's commitment from the
multi-signer, builds the consensus message (round data, commitment, self
key, MtCommitment, rounder timestamp and index), hands it to the send
callback, and marks self Commitment-done only on send success.  The third
component lists the messages handed to the callback. -/
def doCommitmentJob (st : SubroundState) (rounder : Rounder)
    (send : Message → Bool) : Bool × SubroundState × List Message :=
  if !(st.cns.IsSelfJobDone SrBitmap) then (false, st, [])
  else if !(st.cns.CanDoSubroundJob SrCommitment) then (false, st, [])
  else
    match st.cns.SelfConsensusGroupIndex with
    | none => (false, st, [])
    | some selfIndex =>
      match st.multiSigner.Commitment selfIndex with
      | none => (false, st, [])
      | some commitment =>
        let msg : Message := NewConsensusMessage (st.cns.data.getD []) commitment
          st.cns.selfPubKey MtCommitment rounder.timeStamp rounder.index
        if !(send msg) then (false, st, [msg])
        else
          match st.cns.SetSelfJobDone SrCommitment true with
          | none => (false, st, [msg])
          | some cns => (true, { st with cns := cns }, [msg])

/-- Errors of the `spos` package used by `checkNewSubroundCommitmentParams`
and `ValidateConsensusCore`. -/
inductive SposError where
  | errNilSubround
  | errNilConsensusState
  | errNilSendConsensusMessageFunction
  | errNilMultiSigner
  | errNilRounder
  | errNilSyncTimer
  | errNilValidatorGroupSelector
deriving DecidableEq, Repr

/-- The consensus core handler holding the external collaborators the
subround depends on; `none` models a nil dependency. -/
structure ConsensusCore where
  multiSigner : Option MultiSigner
  rounder : Option Rounder
  syncTimer : Option Unit
  validatorGroupSelector : Option Unit

/-- Modelled from the spec: `ValidateConsensusCore` (spos package, not
under src/) — nil/invalid dependencies at construction (missing signer,
rounder, sync timer, group selector) are fatal errors. -/
def ValidateConsensusCore (core : ConsensusCore) : Option SposError :=
  if core.multiSigner.isNone then some .errNilMultiSigner
  else if core.rounder.isNone then some .errNilRounder
  else if core.syncTimer.isNone then some .errNilSyncTimer
  else if core.validatorGroupSelector.isNone then some .errNilValidatorGroupSelector
  else none

/-- The generic subround descriptor, as far as the constructor checks it:
its consensus state (nil-able) and its consensus core handler. -/
structure Subround where
  consensusState : Option ConsensusState
  consensusCore : ConsensusCore

/-- The `subroundCommitment` object: the wrapped subround plus the send
callback. -/
structure SubroundCommitment where
  subround : Subround
  sendConsensusMessage : Message → Bool

/-- `checkNewSubroundCommitmentParams` (subroundCommitment.go): nil
subround, nil consensus state and nil send callback are rejected in that
order, then the consensus core is validated. -/
def checkNewSubroundCommitmentParams (sub : Option Subround)
    (send : Option (Message → Bool)) : Option SposError :=
  match sub with
  | none => some .errNilSubround
  | some sub =>
    if sub.consensusState.isNone then some .errNilConsensusState
    else
      match send with
      | none => some .errNilSendConsensusMessageFunction
      | some _ => ValidateConsensusCore sub.consensusCore

/-- `NewSubroundCommitment` (subroundCommitment.go): returns (nil, error)
when the parameter check fails, otherwise the constructed object and nil
error.  When the check passes both parameters are necessarily present. -/
def NewSubroundCommitment (sub : Option Subround)
    (send : Option (Message → Bool)) :
    Option SubroundCommitment × Option SposError :=
  match checkNewSubroundCommitmentParams sub send with
  | some err => (none, some err)
  | none => (sub.bind fun s => send.map fun f => SubroundCommitment.mk s f, none)

/-- `core.metaChainIdentifier`. -/
def metaChainIdentifier : Nat := 255

/-- `IsMetaChainShardId` (core/address.go): true when every byte of the
identifier equals the metachain identifier 255. -/
def IsMetaChainShardId : Bytes → Bool
  | [] => true
  | b :: rest => if b ≠ metaChainIdentifier then false else IsMetaChainShardId rest

/-! ## Spec-side predicates -/

/-- Spec-side count: the number of consensus-group members whose Bitmap
job and Commitment job are both done. -/
def countBitmapCommitment (s : ConsensusState) : Nat :=
  (s.consensusGroup.filter
    (fun node => s.IsJobDone node SrBitmap && s.IsJobDone node SrCommitment)).length

/-- Spec-side coverage predicate: every consensus-group member whose
Bitmap job is done also has its Commitment job done. -/
def bitmapCovered (s : ConsensusState) : Prop :=
  ∀ node ∈ s.consensusGroup,
    s.IsJobDone node SrBitmap = true → s.IsJobDone node SrCommitment = true

instance (s : ConsensusState) : Decidable (bitmapCovered s) := by
  unfold bitmapCovered; infer_instance

/-- The CommitmentStore invariant: an entry exists at a consensus-group
index only if that index's validator has its Commitment job done. -/
def commitmentStoreInvariant (st : SubroundState) : Prop :=
  ∀ i node, st.cns.consensusGroup.get? i = some node →
    (st.multiSigner.commitments i).isSome = true →
    st.cns.jobDone node SrCommitment = true

/-! ## Concrete instances used by counterexamples and witnesses -/

/-- An empty multi-signer store. -/
def msEmpty : MultiSigner := ⟨fun _ => none⟩

/-- Counterexample state for the completion-check claim: two members, both
bitmap-done, only the first commitment-done, threshold 1.  The both-done
count meets the threshold but the bitmap is not covered. -/
def c1CexState : ConsensusState :=
  { consensusGroup := [[1], [2]]
    selfPubKey := [1]
    data := some [9]
    jobDone := fun n sr => if sr = SrBitmap then true else decide (n = [1])
    status := fun _ => SsNotFinished
    threshold := fun _ => 1
    roundCanceled := false }

/-- A fresh one-member state with everything done and threshold 1. -/
def c1WitState : ConsensusState :=
  { consensusGroup := [[1]]
    selfPubKey := [1]
    data := some [9]
    jobDone := fun _ _ => true
    status := fun _ => SsNotFinished
    threshold := fun _ => 1
    roundCanceled := false }

/-- A state whose round data is not yet set. -/
def c2State : SubroundState :=
  ⟨{ consensusGroup := [[1]]
     selfPubKey := [1]
     data := none
     jobDone := fun _ _ => false
     status := fun _ => SsNotFinished
     threshold := fun _ => 1
     roundCanceled := false }, msEmpty⟩

def c2Rounder : Rounder := ⟨0, 0⟩

def c2Msg : Message := ⟨[9], [7], [1], MtCommitment, 0, 0⟩

/-- A state ready for the local commitment job: self is bitmap-done, the
consensus data is set, and the multi-signer has self's commitment. -/
def c3State : SubroundState :=
  ⟨{ consensusGroup := [[1]]
     selfPubKey := [1]
     data := some [9]
     jobDone := fun _ sr => decide (sr = SrBitmap)
     status := fun _ => SsNotFinished
     threshold := fun _ => 1
     roundCanceled := false }, ⟨fun i => if i = 0 then some [5] else none⟩⟩

def c3Rounder : Rounder := ⟨0, 0⟩

/-- The message `doCommitmentJob` builds from `c3State` and `c3Rounder`. -/
def c3Msg : Message := NewConsensusMessage [9] [5] [1] MtCommitment 0 0

/-- A state satisfying the CommitmentStore invariant with a processable
pending commitment message. -/
def c4State : SubroundState :=
  ⟨{ consensusGroup := [[1], [2]]
     selfPubKey := [1]
     data := some [9]
     jobDone := fun _ sr => decide (sr = SrBitmap)
     status := fun _ => SsNotFinished
     threshold := fun _ => 2
     roundCanceled := false }, msEmpty⟩

def c4Rounder : Rounder := ⟨0, 0⟩

def c4Msg : Message := ⟨[9], [7], [2], MtCommitment, 0, 0⟩

/-- Counterexample state for the Finished-persistence claim: the commitment
subround is Finished but the round has been canceled. -/
def c5CexState : ConsensusState :=
  { consensusGroup := [[1]]
    selfPubKey := [1]
    data := some [9]
    jobDone := fun _ _ => true
    status := fun _ => SsFinished
    threshold := fun _ => 1
    roundCanceled := true }

/-- A Finished, not-canceled state. -/
def c5WitState : ConsensusState :=
  { consensusGroup := [[1]]
    selfPubKey := [1]
    data := some [9]
    jobDone := fun _ _ => true
    status := fun _ => SsFinished
    threshold := fun _ => 1
    roundCanceled := false }

/-- A canceled-round state. -/
def c6State : ConsensusState :=
  { consensusGroup := [[1]]
    selfPubKey := [1]
    data := some [9]
    jobDone := fun _ _ => true
    status := fun _ => SsNotFinished
    threshold := fun _ => 1
    roundCanceled := true }

/-- A state in which the sender of `c7Msg` is already commitment-done. -/
def c7State : SubroundState :=
  ⟨{ consensusGroup := [[1], [2]]
     selfPubKey := [1]
     data := some [9]
     jobDone := fun _ _ => true
     status := fun _ => SsNotFinished
     threshold := fun _ => 1
     roundCanceled := false }, msEmpty⟩

def c7Rounder : Rounder := ⟨0, 0⟩

def c7Msg : Message := ⟨[9], [7], [2], MtCommitment, 0, 0⟩

/-- A consensus core with every dependency present. -/
def c8Core : ConsensusCore := ⟨some msEmpty, some ⟨0, 0⟩, some (), some ()⟩

/-- A subround whose consensus state is present. -/
def c8Subround : Subround := ⟨some c1WitState, c8Core⟩

/-- A state in which member `[2]` is bitmap-done but not commitment-done. -/
def c9State : ConsensusState :=
  { consensusGroup := [[1], [2]]
    selfPubKey := [1]
    data := some [9]
    jobDone := fun n sr => if sr = SrBitmap then true else decide (n = [1])
    status := fun _ => SsNotFinished
    threshold := fun _ => 0
    roundCanceled := false }

/-! ## Helper lemmas -/

namespace ConsensusState

theorem indexOfNode_mem {l : List PubKey} {node : PubKey} {i : Nat}
    (h : indexOfNode l node = some i) : node ∈ l := by
  induction l generalizing i with
  | nil => simp [indexOfNode] at h
  | cons x xs ih =>
    by_cases hx : x = node
    · simp [hx]
    · simp only [indexOfNode, hx, if_false] at h
      cases hrec : indexOfNode xs node with
      | none => simp [hrec] at h
      | some j => exact List.mem_cons_of_mem _ (ih hrec)

theorem indexOfNode_isSome_of_mem {l : List PubKey} {node : PubKey}
    (h : node ∈ l) : (indexOfNode l node).isSome = true := by
  induction l with
  | nil => simp at h
  | cons x xs ih =>
    by_cases hx : x = node
    · simp [indexOfNode, hx]
    · simp only [indexOfNode, hx, if_false]
      rcases List.mem_cons.mp h with h' | h'
      · exact absurd h'.symm hx
      · cases hrec : indexOfNode xs node with
        | none => have := ih h'; simp [hrec] at this
        | some j => simp

theorem indexOfNode_get? {l : List PubKey} {node : PubKey} {i : Nat}
    (h : indexOfNode l node = some i) : l.get? i = some node := by
  induction l generalizing i with
  | nil => simp [indexOfNode] at h
  | cons x xs ih =>
    by_cases hx : x = node
    · simp only [indexOfNode, hx, if_true, Option.some.injEq] at h
      subst h; simp [hx]
    · simp only [indexOfNode, hx, if_false] at h
      cases hrec : indexOfNode xs node with
      | none => simp [hrec] at h
      | some j =>
        simp only [hrec, Option.map_some', Option.some.injEq] at h
        subst h; simpa using ih hrec

theorem mem_of_groupIndex {s : ConsensusState} {node : PubKey} {i : Nat}
    (h : s.ConsensusGroupIndex node = some i) : node ∈ s.consensusGroup :=
  indexOfNode_mem h

theorem SetJobDone_eq_some {s : ConsensusState} {node : PubKey} {sr : Nat}
    {v : Bool} {s' : ConsensusState}
    (h : s.SetJobDone node sr v = some s') :
    node ∈ s.consensusGroup ∧
      s' = { s with jobDone := fun n j =>
        if n = node ∧ j = sr then v else s.jobDone n j } := by
  unfold SetJobDone at h
  split at h
  · exact ⟨by assumption, (Option.some.injEq _ _ ▸ h).symm⟩
  · exact absurd h (by simp)

theorem SetJobDone_isSome_of_mem {s : ConsensusState} {node : PubKey}
    {sr : Nat} {v : Bool} (h : node ∈ s.consensusGroup) :
    (s.SetJobDone node sr v).isSome = true := by
  unfold SetJobDone
  simp [h]

end ConsensusState

open ConsensusState in
theorem commitmentsCollectedAux_iff (s : ConsensusState) (t : Nat)
    (l : List PubKey) :
    ∀ n, commitmentsCollectedAux s t l n = true ↔
      ((∀ node ∈ l,
          s.IsJobDone node SrBitmap = true → s.IsJobDone node SrCommitment = true)
        ∧ t ≤ n + (l.filter
            (fun node => s.IsJobDone node SrBitmap && s.IsJobDone node SrCommitment)).length) := by
  induction l with
  | nil => intro n; simp [commitmentsCollectedAux]
  | cons node rest ih =>
    intro n
    by_cases hmem : node ∈ s.consensusGroup
    · have hJD : ∀ sr, s.JobDone node sr = some (s.jobDone node sr) := by
        intro sr; simp [ConsensusState.JobDone, hmem]
      have hIJ : ∀ sr, s.IsJobDone node sr = s.jobDone node sr := by
        intro sr; simp [ConsensusState.IsJobDone, hJD]
      cases hb : s.jobDone node SrBitmap with
      | false =>
        have hstep : commitmentsCollectedAux s t (node :: rest) n =
            commitmentsCollectedAux s t rest n := by
          simp [commitmentsCollectedAux, hJD, hb]
        rw [hstep, ih n]
        simp [List.filter_cons, hIJ, hb]
      | true =>
        cases hc : s.jobDone node SrCommitment with
        | false =>
          have hstep : commitmentsCollectedAux s t (node :: rest) n = false := by
            simp [commitmentsCollectedAux, hJD, hb, hc]
          rw [hstep]
          constructor
          · intro h; exact absurd h (by simp)
          · rintro ⟨hcov, -⟩
            have := hcov node (List.mem_cons_self _ _) (by rw [hIJ, hb])
            rw [hIJ, hc] at this
            exact absurd this (by simp)
        | true =>
          have hstep : commitmentsCollectedAux s t (node :: rest) n =
              commitmentsCollectedAux s t rest (n + 1) := by
            simp [commitmentsCollectedAux, hJD, hb, hc]
          have hfilter : List.filter
              (fun node => s.IsJobDone node SrBitmap && s.IsJobDone node SrCommitment)
              (node :: rest) = node :: List.filter
              (fun node => s.IsJobDone node SrBitmap && s.IsJobDone node SrCommitment)
              rest := by
            simp [List.filter_cons, hIJ, hb, hc]
          rw [hstep, ih (n + 1), hfilter]
          simp only [List.length_cons, List.forall_mem_cons]
          constructor
          · rintro ⟨hcov, hle⟩
            exact ⟨⟨fun _ => by rw [hIJ, hc], hcov⟩, by omega⟩
          · rintro ⟨⟨-, hcov⟩, hle⟩
            exact ⟨hcov, by omega⟩
    · have hJD : ∀ sr, s.JobDone node sr = none := by
        intro sr; simp [ConsensusState.JobDone, hmem]
      have hIJ : ∀ sr, s.IsJobDone node sr = false := by
        intro sr; simp [ConsensusState.IsJobDone, hJD]
      simp only [commitmentsCollectedAux, hJD]
      rw [ih n]
      simp [List.filter_cons, hIJ]

open ConsensusState in
theorem commitmentsCollected_iff (s : ConsensusState) (t : Nat) :
    commitmentsCollected s t = true ↔
      bitmapCovered s ∧ t ≤ countBitmapCommitment s := by
  unfold commitmentsCollected bitmapCovered countBitmapCommitment
  simpa using commitmentsCollectedAux_iff s t s.consensusGroup 0

open ConsensusState in
theorem receivedCommitment_cases (st : SubroundState) (r : Rounder) (m : Message) :
    receivedCommitment st r m = (false, st)
    ∨ ∃ index cns',
        st.cns.IsConsensusDataSet = true
        ∧ st.cns.IsConsensusDataEqual m.blockHeaderHash = true
        ∧ st.cns.IsJobDone m.pubKey SrBitmap = true
        ∧ st.cns.CanProcessReceivedMessage m r.index SrCommitment = true
        ∧ st.cns.ConsensusGroupIndex m.pubKey = some index
        ∧ st.cns.SetJobDone m.pubKey SrCommitment true = some cns'
        ∧ receivedCommitment st r m =
            (true, ⟨cns', st.multiSigner.StoreCommitment index m.subRoundData⟩) := by
  cases h1 : st.cns.IsConsensusDataSet with
  | false => left; simp [receivedCommitment, h1]
  | true =>
  cases h2 : st.cns.IsConsensusDataEqual m.blockHeaderHash with
  | false => left; simp [receivedCommitment, h1, h2]
  | true =>
  cases h3 : st.cns.IsJobDone m.pubKey SrBitmap with
  | false => left; simp [receivedCommitment, h1, h2, h3]
  | true =>
  cases h4 : st.cns.CanProcessReceivedMessage m r.index SrCommitment with
  | false => left; simp [receivedCommitment, h1, h2, h3, h4]
  | true =>
  cases hidx : st.cns.ConsensusGroupIndex m.pubKey with
  | none => left; simp [receivedCommitment, h1, h2, h3, h4, hidx]
  | some index =>
    have hmem : m.pubKey ∈ st.cns.consensusGroup := mem_of_groupIndex hidx
    have hsome := @SetJobDone_isSome_of_mem _ _ SrCommitment true hmem
    cases hsj : st.cns.SetJobDone m.pubKey SrCommitment true with
    | none => rw [hsj] at hsome; simp at hsome
    | some cns' =>
      right
      refine ⟨index, cns', rfl, rfl, rfl, rfl, rfl, rfl, ?_⟩
      simp [receivedCommitment, h1, h2, h3, h4, hidx, hsj]

open ConsensusState in
theorem doCommitmentJob_cases (st : SubroundState) (r : Rounder)
    (send : Message → Bool) :
    (doCommitmentJob st r send).2.1 = st
    ∨ ∃ cns', st.cns.SetSelfJobDone SrCommitment true = some cns'
        ∧ (doCommitmentJob st r send).2.1 = { st with cns := cns' } := by
  cases h1 : st.cns.IsSelfJobDone SrBitmap with
  | false => left; simp [doCommitmentJob, h1]
  | true =>
  cases h2 : st.cns.CanDoSubroundJob SrCommitment with
  | false => left; simp [doCommitmentJob, h1, h2]
  | true =>
  cases hidx : st.cns.SelfConsensusGroupIndex with
  | none => left; simp [doCommitmentJob, h1, h2, hidx]
  | some i =>
  cases hcom : st.multiSigner.Commitment i with
  | none => left; simp [doCommitmentJob, h1, h2, hidx, hcom]
  | some c =>
  cases hsend : send (NewConsensusMessage (st.cns.data.getD []) c
      st.cns.selfPubKey MtCommitment r.timeStamp r.index) with
  | false => left; simp [doCommitmentJob, h1, h2, hidx, hcom, hsend]
  | true =>
    have hmem : st.cns.selfPubKey ∈ st.cns.consensusGroup := mem_of_groupIndex hidx
    have hsome := @SetJobDone_isSome_of_mem _ _ SrCommitment true hmem
    cases hsj : st.cns.SetSelfJobDone SrCommitment true with
    | none =>
      rw [SetSelfJobDone] at hsj; rw [hsj] at hsome; simp at hsome
    | some cns' =>
      right
      exact ⟨cns', rfl, by simp [doCommitmentJob, h1, h2, hidx, hcom, hsend, hsj]⟩

theorem doCommitmentConsensusCheck_cases (s : ConsensusState) :
    (doCommitmentConsensusCheck s).2 = s
    ∨ (doCommitmentConsensusCheck s).2 = s.SetStatus SrCommitment SsFinished := by
  unfold doCommitmentConsensusCheck
  repeat' split
  all_goals simp

/-! ## Claim theorems -/

/-- C10: `IsMetaChainShardId` returns true for the empty byte slice, and in
general returns true exactly when every byte of the identifier equals
255. -/
theorem isMetaChainShardId_iff_all_255 :
    IsMetaChainShardId [] = true
    ∧ ∀ l : Bytes, (IsMetaChainShardId l = true ↔ ∀ b ∈ l, b = 255) := by
  refine ⟨rfl, ?_⟩
  intro l
  induction l with
  | nil => simp [IsMetaChainShardId]
  | cons b rest ih =>
    by_cases hb : b = 255
    · simp [IsMetaChainShardId, metaChainIdentifier, hb, ih]
    · simp [IsMetaChainShardId, metaChainIdentifier, hb]

/-- C6: whenever RoundCanceled is true, the commitment subround's check
returns false and performs no status transition. -/
theorem doCommitmentConsensusCheck_canceled (s : ConsensusState)
    (h : s.roundCanceled = true) :
    doCommitmentConsensusCheck s = (false, s) := by
  simp [doCommitmentConsensusCheck, h]

/-- C6 witness: the canceled-round check at a concrete state. -/
theorem doCommitmentConsensusCheck_canceled_witness :
    doCommitmentConsensusCheck c6State = (false, c6State) :=
  doCommitmentConsensusCheck_canceled c6State rfl

/-- C9: `commitmentsCollected` returns true only when every group member
whose Bitmap job is done also has its Commitment job done, and a single
bitmap-done member without a commitment forces false for any threshold. -/
theorem commitmentsCollected_requires_coverage (s : ConsensusState) (t : Nat) :
    (commitmentsCollected s t = true → bitmapCovered s)
    ∧ ∀ node ∈ s.consensusGroup,
        s.IsJobDone node SrBitmap = true →
        s.IsJobDone node SrCommitment = false →
        commitmentsCollected s t = false := by
  constructor
  · intro h; exact ((commitmentsCollected_iff s t).mp h).1
  · intro node hmem hb hc
    cases h : commitmentsCollected s t with
    | false => rfl
    | true =>
      have := ((commitmentsCollected_iff s t).mp h).1 node hmem hb
      rw [hc] at this
      exact absurd this (by simp)

/-- C9 witness: member `[2]` of `c9State` is bitmap-done without a
commitment, so collection fails even at threshold 0. -/
theorem commitmentsCollected_requires_coverage_witness :
    commitmentsCollected c9State 0 = false :=
  (commitmentsCollected_requires_coverage c9State 0).2 [2] (by decide)
    (by decide) (by decide)

/-- C1 counterexample: in `c1CexState` the subround is fresh and the count
of members with both Bitmap and Commitment done meets the threshold, yet
`doCommitmentConsensusCheck` returns false (member `[2]` is bitmap-done
without a commitment). -/
theorem doCommitmentConsensusCheck_threshold_not_sufficient :
    c1CexState.roundCanceled = false
    ∧ c1CexState.Status SrCommitment ≠ SsFinished
    ∧ c1CexState.Threshold SrCommitment ≤ countBitmapCommitment c1CexState
    ∧ (doCommitmentConsensusCheck c1CexState).1 = false := by decide

/-- C1 (amended): for a fresh (not Finished, not canceled) subround, the
check returns true iff every bitmap-done member is also commitment-done
AND the both-done count reaches the Commitment threshold; returning true
marks the subround Finished, returning false leaves the state unchanged. -/
theorem doCommitmentConsensusCheck_fresh (s : ConsensusState)
    (hcancel : s.roundCanceled = false)
    (hfresh : s.Status SrCommitment ≠ SsFinished) :
    ((doCommitmentConsensusCheck s).1 = true ↔
      bitmapCovered s ∧ s.Threshold SrCommitment ≤ countBitmapCommitment s)
    ∧ ((doCommitmentConsensusCheck s).1 = true →
        ((doCommitmentConsensusCheck s).2).Status SrCommitment = SsFinished)
    ∧ ((doCommitmentConsensusCheck s).1 = false →
        (doCommitmentConsensusCheck s).2 = s) := by
  cases hcol : commitmentsCollected s (s.Threshold SrCommitment) with
  | true =>
    have h : doCommitmentConsensusCheck s =
        (true, s.SetStatus SrCommitment SsFinished) := by
      simp [doCommitmentConsensusCheck, hcancel, hfresh, hcol]
    rw [h]
    refine ⟨?_, ?_, ?_⟩
    · simpa using (commitmentsCollected_iff s (s.Threshold SrCommitment)).mp hcol
    · intro _; simp [ConsensusState.SetStatus, ConsensusState.Status]
    · intro hfalse; exact absurd hfalse (by simp)
  | false =>
    have h : doCommitmentConsensusCheck s = (false, s) := by
      simp [doCommitmentConsensusCheck, hcancel, hfresh, hcol]
    rw [h]
    refine ⟨?_, ?_, ?_⟩
    · constructor
      · intro hh; exact absurd hh (by simp)
      · intro hrhs
        have := (commitmentsCollected_iff s (s.Threshold SrCommitment)).mpr hrhs
        rw [hcol] at this
        exact absurd this (by simp)
    · intro hh; exact absurd hh (by simp)
    · intro _; rfl

/-- C1 witness: the amended check succeeds at a concrete covered state
meeting the threshold. -/
theorem doCommitmentConsensusCheck_fresh_witness :
    (doCommitmentConsensusCheck c1WitState).1 = true :=
  ((doCommitmentConsensusCheck_fresh c1WitState rfl (by decide)).1).mpr (by decide)

/-- C5 counterexample: with the commitment subround Finished but the round
canceled, the check returns false — the round-cancellation guard precedes
the Finished short-circuit. -/
theorem doCommitmentConsensusCheck_finished_canceled :
    c5CexState.Status SrCommitment = SsFinished
    ∧ (doCommitmentConsensusCheck c5CexState).1 = false := by decide

open ConsensusState in
/-- C5 (amended): once the commitment subround is Finished, every
subsequent check returns true as long as the round is not canceled, and no
commitment-subround operation moves the status out of Finished. -/
theorem commitmentFinished_persists (s : ConsensusState) (st : SubroundState)
    (r : Rounder) (m : Message) (send : Message → Bool) :
    (s.Status SrCommitment = SsFinished → s.roundCanceled = false →
      doCommitmentConsensusCheck s = (true, s))
    ∧ (s.Status SrCommitment = SsFinished →
        ((doCommitmentConsensusCheck s).2).Status SrCommitment = SsFinished)
    ∧ ((receivedCommitment st r m).2.cns.Status SrCommitment
        = st.cns.Status SrCommitment)
    ∧ ((doCommitmentJob st r send).2.1.cns.Status SrCommitment
        = st.cns.Status SrCommitment) := by
  refine ⟨?_, ?_, ?_, ?_⟩
  · intro hfin hcancel
    simp [doCommitmentConsensusCheck, hcancel, hfin]
  · intro hfin
    rcases doCommitmentConsensusCheck_cases s with h | h
    · rw [h]; exact hfin
    · rw [h]; simp [SetStatus, Status]
  · rcases receivedCommitment_cases st r m with h | ⟨i, cns', _, _, _, _, _, hsj, h⟩
    · rw [h]
    · rw [h]
      have := (SetJobDone_eq_some hsj).2
      rw [this]
      rfl
  · rcases doCommitmentJob_cases st r send with h | ⟨cns', hsj, h⟩
    · rw [h]
    · rw [h]
      have := (@SetJobDone_eq_some st.cns st.cns.selfPubKey SrCommitment true _ hsj).2
      rw [this]
      rfl

/-- C5 witness: the persistence theorem applied at a concrete Finished
state and concrete operation arguments. -/
theorem commitmentFinished_persists_witness :
    doCommitmentConsensusCheck c5WitState = (true, c5WitState) :=
  (commitmentFinished_persists c5WitState c2State c2Rounder c2Msg
    (fun _ => true)).1 rfl rfl

open ConsensusState in
/-- C7: a commitment re-delivered by a sender whose Commitment job is
already done is rejected with no state change (so the both-done count
cannot grow), and a check that returned true returns true again on the
state it produced. -/
theorem duplicateCommitment_no_double_count (st : SubroundState) (r : Rounder)
    (m : Message) (s : ConsensusState) :
    (st.cns.IsJobDone m.pubKey SrCommitment = true →
      receivedCommitment st r m = (false, st))
    ∧ ((doCommitmentConsensusCheck s).1 = true →
        doCommitmentConsensusCheck (doCommitmentConsensusCheck s).2 =
          (true, (doCommitmentConsensusCheck s).2)) := by
  constructor
  · intro hdup
    rcases receivedCommitment_cases st r m with h | ⟨i, cns', _, _, _, h4, _, _, _⟩
    · exact h
    · rw [CanProcessReceivedMessage, hdup] at h4
      simp at h4
  · intro h
    cases hcanc : s.roundCanceled with
    | true => rw [doCommitmentConsensusCheck_canceled s hcanc] at h; simp at h
    | false =>
      by_cases hfin : s.Status SrCommitment = SsFinished
      · have hs : doCommitmentConsensusCheck s = (true, s) := by
          simp [doCommitmentConsensusCheck, hcanc, hfin]
        rw [hs]
        exact hs
      · cases hcol : commitmentsCollected s (s.Threshold SrCommitment) with
        | false =>
          have hs : doCommitmentConsensusCheck s = (false, s) := by
            simp [doCommitmentConsensusCheck, hcanc, hfin, hcol]
          rw [hs] at h; simp at h
        | true =>
          have hs : doCommitmentConsensusCheck s =
              (true, s.SetStatus SrCommitment SsFinished) := by
            simp [doCommitmentConsensusCheck, hcanc, hfin, hcol]
          rw [hs]
          have hc2 : (s.SetStatus SrCommitment SsFinished).roundCanceled = false :=
            hcanc
          have hf2 : (s.SetStatus SrCommitment SsFinished).Status SrCommitment
              = SsFinished := by
            simp [SetStatus, Status]
          simp [doCommitmentConsensusCheck, hc2, hf2]

/-- C7 witness: a duplicate from the already-done sender `[2]` at a
concrete state is rejected with the state unchanged. -/
theorem duplicateCommitment_no_double_count_witness :
    receivedCommitment c7State c7Rounder c7Msg = (false, c7State) :=
  (duplicateCommitment_no_double_count c7State c7Rounder c7Msg
    c7State.cns).1 (by decide)

open ConsensusState in
/-- C2: `receivedCommitment` stores the commitment at the sender's index
and marks the sender Commitment-done only when the round data is set and
equal to the message's header hash, the sender is bitmap-done, and the
generic processable check passes; if any of these fails it returns false
with no state change. -/
theorem receivedCommitment_gated (st : SubroundState) (r : Rounder)
    (m : Message) :
    (¬(st.cns.IsConsensusDataSet = true
        ∧ st.cns.IsConsensusDataEqual m.blockHeaderHash = true
        ∧ st.cns.IsJobDone m.pubKey SrBitmap = true
        ∧ st.cns.CanProcessReceivedMessage m r.index SrCommitment = true) →
      receivedCommitment st r m = (false, st))
    ∧ ((receivedCommitment st r m).1 = true →
        st.cns.IsConsensusDataSet = true
        ∧ st.cns.IsConsensusDataEqual m.blockHeaderHash = true
        ∧ st.cns.IsJobDone m.pubKey SrBitmap = true
        ∧ st.cns.CanProcessReceivedMessage m r.index SrCommitment = true
        ∧ ∃ i, st.cns.ConsensusGroupIndex m.pubKey = some i
            ∧ (receivedCommitment st r m).2.multiSigner.commitments i
                = some m.subRoundData
            ∧ (receivedCommitment st r m).2.cns.jobDone m.pubKey SrCommitment
                = true) := by
  constructor
  · intro hng
    cases h1 : st.cns.IsConsensusDataSet with
    | false => simp [receivedCommitment, h1]
    | true =>
    cases h2 : st.cns.IsConsensusDataEqual m.blockHeaderHash with
    | false => simp [receivedCommitment, h1, h2]
    | true =>
    cases h3 : st.cns.IsJobDone m.pubKey SrBitmap with
    | false => simp [receivedCommitment, h1, h2, h3]
    | true =>
    cases h4 : st.cns.CanProcessReceivedMessage m r.index SrCommitment with
    | false => simp [receivedCommitment, h1, h2, h3, h4]
    | true => exact absurd ⟨h1, h2, h3, h4⟩ hng
  · intro hres
    rcases receivedCommitment_cases st r m with h | ⟨i, cns', h1, h2, h3, h4, hidx, hsj, h⟩
    · rw [h] at hres; exact absurd hres (by simp)
    · refine ⟨h1, h2, h3, h4, i, hidx, ?_, ?_⟩
      · rw [h]; simp [MultiSigner.StoreCommitment]
      · rw [h]
        have := (SetJobDone_eq_some hsj).2
        rw [this]
        simp

/-- C2 witness: with the round data unset, a concrete commitment message
is rejected and the state is unchanged. -/
theorem receivedCommitment_gated_witness :
    receivedCommitment c2State c2Rounder c2Msg = (false, c2State) :=
  (receivedCommitment_gated c2State c2Rounder c2Msg).1 (by decide)

open ConsensusState MultiSigner in
/-- C3: `doCommitmentJob` returns false with no state change when a
precondition fails (self not bitmap-done, `CanDoSubroundJob` false, or no
commitment obtainable); on success it hands exactly one message — carrying
the round data, the rounder timestamp and the round index — to the send
callback, and marks self Commitment-done only when the callback returns
success. -/
theorem doCommitmentJob_gated (st : SubroundState) (r : Rounder)
    (send : Message → Bool) :
    (st.cns.IsSelfJobDone SrBitmap = false →
      doCommitmentJob st r send = (false, st, []))
    ∧ (st.cns.CanDoSubroundJob SrCommitment = false →
        doCommitmentJob st r send = (false, st, []))
    ∧ (st.cns.SelfConsensusGroupIndex = none →
        doCommitmentJob st r send = (false, st, []))
    ∧ (∀ i, st.cns.SelfConsensusGroupIndex = some i →
        st.multiSigner.Commitment i = none →
        doCommitmentJob st r send = (false, st, []))
    ∧ (∀ i c msg, st.cns.IsSelfJobDone SrBitmap = true →
        st.cns.CanDoSubroundJob SrCommitment = true →
        st.cns.SelfConsensusGroupIndex = some i →
        st.multiSigner.Commitment i = some c →
        msg = NewConsensusMessage (st.cns.data.getD []) c st.cns.selfPubKey
          MtCommitment r.timeStamp r.index →
        (send msg = false → doCommitmentJob st r send = (false, st, [msg]))
        ∧ (send msg = true →
            (doCommitmentJob st r send).1 = true
            ∧ (doCommitmentJob st r send).2.2 = [msg]
            ∧ (doCommitmentJob st r send).2.1.multiSigner = st.multiSigner
            ∧ (doCommitmentJob st r send).2.1.cns.jobDone st.cns.selfPubKey
                SrCommitment = true)) := by
  refine ⟨?_, ?_, ?_, ?_, ?_⟩
  · intro h1; simp [doCommitmentJob, h1]
  · intro h2
    cases h1 : st.cns.IsSelfJobDone SrBitmap with
    | false => simp [doCommitmentJob, h1]
    | true => simp [doCommitmentJob, h1, h2]
  · intro hidx
    cases h1 : st.cns.IsSelfJobDone SrBitmap with
    | false => simp [doCommitmentJob, h1]
    | true =>
      cases h2 : st.cns.CanDoSubroundJob SrCommitment with
      | false => simp [doCommitmentJob, h1, h2]
      | true => simp [doCommitmentJob, h1, h2, hidx]
  · intro i hidx hcom
    cases h1 : st.cns.IsSelfJobDone SrBitmap with
    | false => simp [doCommitmentJob, h1]
    | true =>
      cases h2 : st.cns.CanDoSubroundJob SrCommitment with
      | false => simp [doCommitmentJob, h1, h2]
      | true => simp [doCommitmentJob, h1, h2, hidx, hcom]
  · intro i c msg h1 h2 hidx hcom hmsg
    subst hmsg
    constructor
    · intro hsend
      simp [doCommitmentJob, h1, h2, hidx, hcom, hsend]
    · intro hsend
      have hmem : st.cns.selfPubKey ∈ st.cns.consensusGroup :=
        mem_of_groupIndex hidx
      have hsome := @SetJobDone_isSome_of_mem _ _ SrCommitment true hmem
      cases hsj : st.cns.SetSelfJobDone SrCommitment true with
      | none => rw [SetSelfJobDone] at hsj; rw [hsj] at hsome; simp at hsome
      | some cns' =>
        have hcns := (@SetJobDone_eq_some st.cns st.cns.selfPubKey SrCommitment true _ hsj).2
        refine ⟨?_, ?_, ?_, ?_⟩
        · simp [doCommitmentJob, h1, h2, hidx, hcom, hsend, hsj]
        · simp [doCommitmentJob, h1, h2, hidx, hcom, hsend, hsj]
        · simp [doCommitmentJob, h1, h2, hidx, hcom, hsend, hsj]
        · simp only [doCommitmentJob, h1, h2, hidx, hcom, hsend, hsj]
          simp [hcns]

/-- C3 witness: the job succeeds at a concrete ready state with an
always-true send callback, sending exactly the expected message. -/
theorem doCommitmentJob_gated_witness :
    (doCommitmentJob c3State c3Rounder (fun _ => true)).1 = true
    ∧ (doCommitmentJob c3State c3Rounder (fun _ => true)).2.2 = [c3Msg]
    ∧ (doCommitmentJob c3State c3Rounder (fun _ => true)).2.1.multiSigner
        = c3State.multiSigner
    ∧ (doCommitmentJob c3State c3Rounder (fun _ => true)).2.1.cns.jobDone
        c3State.cns.selfPubKey SrCommitment = true :=
  ((doCommitmentJob_gated c3State c3Rounder (fun _ => true)).2.2.2.2
    0 [5] c3Msg (by decide) (by decide) (by decide) (by decide)
    (by decide)).2 rfl

open ConsensusState MultiSigner in
/-- C4: the CommitmentStore invariant — an entry exists at a
consensus-group index only if that index's validator is Commitment-done —
is preserved by every commitment-subround operation. -/
theorem commitmentStoreInvariant_preserved (st : SubroundState) (r : Rounder)
    (m : Message) (send : Message → Bool)
    (hinv : commitmentStoreInvariant st) :
    commitmentStoreInvariant (receivedCommitment st r m).2
    ∧ commitmentStoreInvariant (doCommitmentJob st r send).2.1
    ∧ commitmentStoreInvariant ⟨(doCommitmentConsensusCheck st.cns).2, st.multiSigner⟩ := by
  refine ⟨?_, ?_, ?_⟩
  · rcases receivedCommitment_cases st r m with h | ⟨index, cns', _, _, _, _, hidx, hsj, h⟩
    · rw [h]; exact hinv
    · rw [h]
      have hcns := (SetJobDone_eq_some hsj).2
      intro i node hget hsome
      rw [hcns] at hget
      by_cases hi : i = index
      · subst hi
        have hnode : st.cns.consensusGroup.get? i = some m.pubKey :=
          indexOfNode_get? hidx
        rw [hget] at hnode
        have hnode' : node = m.pubKey := Option.some.inj hnode
        rw [hcns]
        simp [hnode']
      · rw [StoreCommitment] at hsome
        simp only [if_neg hi] at hsome
        have := hinv i node hget hsome
        rw [hcns]
        simp only
        split
        · rfl
        · exact this
  · rcases doCommitmentJob_cases st r send with h | ⟨cns', hsj, h⟩
    · rw [h]; exact hinv
    · rw [h]
      have hcns := (@SetJobDone_eq_some st.cns st.cns.selfPubKey SrCommitment true _ hsj).2
      intro i node hget hsome
      rw [hcns] at hget
      have := hinv i node hget hsome
      rw [hcns]
      simp only
      split
      · rfl
      · exact this
  · rcases doCommitmentConsensusCheck_cases st.cns with h | h
    · rw [h]; exact hinv
    · rw [h]
      intro i node hget hsome
      exact hinv i node hget hsome

/-- C4 witness: the invariant holds for the empty store and is preserved
through a concrete received commitment. -/
theorem commitmentStoreInvariant_preserved_witness :
    commitmentStoreInvariant (receivedCommitment c4State c4Rounder c4Msg).2 :=
  (commitmentStoreInvariant_preserved c4State c4Rounder c4Msg (fun _ => true)
    (by intro i node _ hsome; simp [c4State, msEmpty] at hsome)).1

/-- C8: `NewSubroundCommitment` returns (nil, error) when the subround,
its consensus state, or the send callback is nil; with everything present
and a valid consensus core it returns the object and nil error. -/
theorem NewSubroundCommitment_gated (sub : Option Subround)
    (send : Option (Message → Bool)) :
    ((sub = none ∨ (∃ s, sub = some s ∧ s.consensusState = none) ∨ send = none) →
      (NewSubroundCommitment sub send).1 = none
      ∧ ((NewSubroundCommitment sub send).2).isSome = true)
    ∧ (∀ s f, sub = some s → send = some f →
        s.consensusState.isSome = true →
        ValidateConsensusCore s.consensusCore = none →
        NewSubroundCommitment sub send = (some ⟨s, f⟩, none)) := by
  constructor
  · rintro (hsub | ⟨s, hsub, hcs⟩ | hsend)
    · subst hsub
      simp [NewSubroundCommitment, checkNewSubroundCommitmentParams]
    · subst hsub
      simp [NewSubroundCommitment, checkNewSubroundCommitmentParams, hcs]
    · subst hsend
      cases sub with
      | none => simp [NewSubroundCommitment, checkNewSubroundCommitmentParams]
      | some s =>
        by_cases hcs : s.consensusState.isNone
        · simp [NewSubroundCommitment, checkNewSubroundCommitmentParams, hcs]
        · simp [NewSubroundCommitment, checkNewSubroundCommitmentParams, hcs]
  · intro s f hsub hsend hcs hval
    subst hsub
    subst hsend
    have hcs' : s.consensusState.isNone = false := by
      cases hc : s.consensusState with
      | none => rw [hc] at hcs; simp at hcs
      | some _ => simp
    simp [NewSubroundCommitment, checkNewSubroundCommitmentParams, hcs', hval]

/-- C8 witness: nil subround yields (nil, error); a fully supplied
subround with a valid core constructs successfully. -/
theorem NewSubroundCommitment_gated_witness :
    ((NewSubroundCommitment none none).1 = none
      ∧ ((NewSubroundCommitment none none).2).isSome = true)
    ∧ NewSubroundCommitment (some c8Subround) (some (fun _ => true)) =
        (some ⟨c8Subround, fun _ => true⟩, none) :=
  ⟨(NewSubroundCommitment_gated none none).1 (Or.inl rfl),
    (NewSubroundCommitment_gated (some c8Subround) (some (fun _ => true))).2
      c8Subround (fun _ => true) rfl rfl (by simp [c8Subround, c1WitState])
      (by simp [c8Subround, c8Core, ValidateConsensusCore])⟩

end ElrondBn
